import Mathlib

/-!
Verification of the period-alignment and comparison-table engine implemented in
`src/saas/management/commands/report_weekly_revenue.py`.

Embedding conventions:
* Python integers are `Int`; the monetary amounts handled by the command are
  integers.  The float `amount = (current - previous) * 100 / previous` is
  modelled bit-faithfully: the exact fraction is rounded to the nearest IEEE
  binary64 value (53 significant bits, ties to even) and `round(amount, 2)`
  then rounds the exact value of that double at two decimal places.  The
  exponent limits of binary64 (overflow near 1e308, subnormals below
  1e-308) are not modelled; reaching them takes amounts hundreds of digits
  long.  The rendering `str(...)` is the trimmed fixed-point decimal, which
  is what Python prints whenever the rounded percentage is below about 3.5e13
  in magnitude (bound `2 ^ 45 * 100` hundredths below); beyond that, doubles
  are sparser than hundredths and the shortest float repr may drop digits.
* Python dynamic typing is modelled by a value type `PyVal` (int or str) and
  fallible operations return `Except PyErr`.
* Collaborators that live outside `src/` (the period generators of
  `saas.metrics.base`, `parse_tz`, `as_money`, the aggregation functions and
  `settings.DEFAULT_UNIT`) are taken as parameters; `get_different_units` is
  modelled from the spec, as noted at its definition.
-/

/-- Rounding of the exact fraction `n / d` (with `d ≠ 0`) to the nearest
integer, ties going to the even integer: the rounding IEEE-754 applies at
the significand when dividing, and the one the Python builtin `round`
applies at the decimal position. -/
def round_half_even_frac (n d : ℤ) : ℤ :=
  let n2 : ℤ := if d < 0 then -n else n
  let d2 : ℤ := if d < 0 then -d else d
  let f : ℤ := Int.fdiv n2 d2
  let r : ℤ := n2 - f * d2
  if 2 * r < d2 then f
  else if d2 < 2 * r then f + 1
  else if f % 2 = 0 then f else f + 1

/-- Fuel-driven floor of the base-2 logarithm (fuel at least the argument
suffices; structural recursion keeps it kernel-computable). -/
def log2Fuel : Nat → Nat → Nat
  | 0, _ => 0
  | fuel + 1, n => if n < 2 then 0 else log2Fuel fuel (n / 2) + 1

/-- Floor of the base-2 logarithm of a natural number (0 for 0 and 1). -/
def natLog2 (n : Nat) : Nat := log2Fuel n n

/-- Floor of the base-2 logarithm of the fraction `a / b` for `a, b > 0`:
the bit-length difference, corrected downward by one when `a / b` falls
below it. -/
def floorLog2Frac (a b : ℤ) : ℤ :=
  let c : ℤ := (natLog2 a.toNat : ℤ) - (natLog2 b.toNat : ℤ)
  if 0 ≤ c then (if b * 2 ^ c.toNat ≤ a then c else c - 1)
  else (if b ≤ a * 2 ^ (-c).toNat then c else c - 1)

/-- The IEEE binary64 value nearest to the fraction `n / d` (for `d ≠ 0`),
as an exact pair: significand times `2 ^ exponent`.  With `e` the floor of
the base-2 logarithm of `|n / d|`, the fraction is rounded half-to-even at
the position `2 ^ (e - 52)` — one unit in the last place of a 53-bit
significand — which is exactly the rounding the Python division `n / d`
performs (exponent saturation aside, see the module docstring). -/
def round_to_double (n d : ℤ) : ℤ × ℤ :=
  if n = 0 then (0, 0)
  else
    let a : ℤ := n.natAbs
    let b : ℤ := d.natAbs
    let e : ℤ := floorLog2Frac a b
    let shift : ℤ := 52 - e
    let m : ℤ :=
      if 0 ≤ shift then round_half_even_frac (a * 2 ^ shift.toNat) b
      else round_half_even_frac a (b * 2 ^ (-shift).toNat)
    (if (decide (n < 0)) ≠ (decide (d < 0)) then -m else m, e - 52)

/-- Python `round(x, 2)` on the double `x = m * 2 ^ e`, as a count of
hundredths: the exact value of the double is rounded half-to-even at two
decimals (a double never sits exactly on a two-decimal tie, so the tie rule
is never exercised on real doubles). -/
def round2_double (m e : ℤ) : ℤ :=
  if 0 ≤ e then m * 2 ^ e.toNat * 100
  else round_half_even_frac (m * 100) (2 ^ (-e).toNat)

/-- The hundredths of `round(n / d, 2)` as Python computes it on integers
`n`, `d ≠ 0`: float division to the nearest binary64, then decimal rounding
of that double. -/
def py_round2_frac (n d : ℤ) : ℤ :=
  let md := round_to_double n d
  round2_double md.1 md.2

/-- Rendering of a two-decimal value given as a count of hundredths `h`,
the way Python renders the float `round(amount, 2)` with `str`: minimal
digits with at least one decimal digit (`50.0`, `12.34`, `0.05`).  The flag
`isneg` is the sign of the original amount, so that a negative amount that
rounds to zero renders as `-0.0`, as the Python float does. -/
def format_amount2 (h : ℤ) (isneg : Bool) : String :=
  let a : ℕ := h.natAbs
  let intPart : ℕ := a / 100
  let frac : ℕ := a % 100
  let fracDigits : String :=
    if frac = 0 then "0"
    else if frac % 10 = 0 then toString (frac / 10)
    else if frac < 10 then "0" ++ toString frac
    else toString frac
  (if isneg then "-" else "") ++ toString intPart ++ "." ++ fracDigits

/-- Translation of `calculate_percentage_change` (inner function of
`Command.construct_table`, `report_weekly_revenue.py` lines 113-122).
The Python code computes the double `amount = (current - previous) * 100 /
previous`, renders `str(round(amount, 2)) + '%'` and prepends `'+'` when
`amount > 0` (the unrounded amount); `except ZeroDivisionError` is exactly
the `previous = 0` case.  With `num = (current - previous) * 100` the
double is `py_round2_frac`-rounded; `amount > 0` is `0 < num * previous`
since `previous ≠ 0` on this branch, and the sign bit of `amount` (driving
the `-` of `str`, including the negative zero `0 / negative = -0.0`) is
`num * previous < 0 ∨ (num = 0 ∧ previous < 0)`. -/
def calculate_percentage_change (current previous : ℤ) : String :=
  if previous = 0 then "N/A"
  else
    let num : ℤ := (current - previous) * 100
    let rounded : ℤ := py_round2_frac num previous
    let percentage : String :=
      format_amount2 rounded
        (decide (num * previous < 0 ∨ (num = 0 ∧ previous < 0))) ++ "%"
    if 0 < num * previous then "+" ++ percentage else percentage

/-- Rendering of the rounded percentage `pct` (in hundredths) as the spec
words it: the value itself followed by nothing but its own sign (a number has
no negative zero). -/
def format_hundredths (h : ℤ) : String :=
  format_amount2 h (decide (h < 0))

/-- Definition following the words of the spec, for refinement comparison
with `calculate_percentage_change`: `pct = round((current - previous) * 100
/ previous, 2)`, rendered as `"<value>%"`, prefixed with `+` exactly when
`pct > 0` (the ROUNDED value). -/
def percentage_change_spec (current previous : ℤ) : String :=
  if previous = 0 then "N/A"
  else
    let pct : ℤ := py_round2_frac ((current - previous) * 100) previous
    let percentage : String := format_hundredths pct ++ "%"
    if 0 < pct then "+" ++ percentage else percentage

/-- Helper: a string ending in the percent sign is never the string N/A. -/
lemma percent_ne_NA (s : String) : s ++ "%" ≠ "N/A" := by
  intro h
  have hm : ('%' : Char) ∈ (s ++ "%").data := by
    have hd : (s ++ "%").data = s.data ++ ['%'] := rfl
    rw [hd]
    simp
  rw [h] at hm
  exact absurd hm (by decide)

/-- Helper: a string starting with the plus sign is never the string N/A. -/
lemma plus_ne_NA (s : String) : "+" ++ s ≠ "N/A" := by
  intro h
  have hm : ('+' : Char) ∈ ("+" ++ s).data := by
    have hd : ("+" ++ s).data = '+' :: s.data := rfl
    rw [hd]
    simp
  rw [h] at hm
  exact absurd hm (by decide)

/-- C1 (counterexample to the claim as stated): at `current = 100001`,
`previous = 100000` the unrounded change is `0.001`, which rounds to `0.0`,
so the spec formula (plus sign exactly when the rounded percentage is
positive) yields `"0.0%"`, while the code tests the UNROUNDED amount and
returns `"+0.0%"`. -/
theorem c1_counterexample :
    calculate_percentage_change 100001 100000 = "+0.0%"
  ∧ percentage_change_spec 100001 100000 = "0.0%"
  ∧ calculate_percentage_change 100001 100000 ≠ percentage_change_spec 100001 100000 := by
  refine ⟨by decide, by decide, by decide⟩

/-- C1 (amended): `calculate_percentage_change current previous` is `"N/A"`
exactly when `previous = 0`; otherwise it renders the float change rounded
at two decimals (`py_round2_frac`, the binary64-faithful rounding) followed
by a percent sign, prefixed with a plus sign exactly when the UNROUNDED
change is positive (equivalently `0 < (current - previous) * previous`) —
not when the rounded percentage is positive — and signed with the sign bit
of the float (so a tiny negative change renders as `-0.0%`).  The rendering
conjuncts carry the bound under which the trimmed fixed-point decimal is
what Python prints (see the module docstring); the three examples of the
spec hold as stated, the tie-adjacent input `(4107, 4000)` renders
`"+2.67%"` exactly as the program does (the double below 2.675 rounds
down), and `(100001, 100000)` shows the plus sign on a change that rounds
to zero. -/
theorem c1_percentage_change (current previous : ℤ) :
    (calculate_percentage_change current previous = "N/A" ↔ previous = 0)
  ∧ (previous ≠ 0 → 0 < (current - previous) * previous →
      (py_round2_frac ((current - previous) * 100) previous).natAbs ≤ 2 ^ 45 * 100 →
      calculate_percentage_change current previous
        = "+" ++ format_amount2 (py_round2_frac ((current - previous) * 100) previous) false
            ++ "%")
  ∧ (previous ≠ 0 → (current - previous) * previous ≤ 0 →
      (py_round2_frac ((current - previous) * 100) previous).natAbs ≤ 2 ^ 45 * 100 →
      calculate_percentage_change current previous
        = format_amount2 (py_round2_frac ((current - previous) * 100) previous)
            (decide ((current - previous) * previous < 0
              ∨ (current = previous ∧ previous < 0))) ++ "%")
  ∧ calculate_percentage_change 150 100 = "+50.0%"
  ∧ calculate_percentage_change 80 100 = "-20.0%"
  ∧ calculate_percentage_change 50 0 = "N/A"
  ∧ calculate_percentage_change 4107 4000 = "+2.67%"
  ∧ calculate_percentage_change 100001 100000 = "+0.0%" := by
  refine ⟨⟨?_, ?_⟩, ?_, ?_, by decide, by decide, by decide, by decide, by decide⟩
  · intro h
    by_contra hp
    simp only [calculate_percentage_change, hp, if_false] at h
    split_ifs at h with h1
    · exact plus_ne_NA _ h
    · exact percent_ne_NA _ h
  · intro h
    subst h
    rfl
  · intro hp hpos hbound
    simp only [calculate_percentage_change, hp, if_false]
    have h1 : 0 < (current - previous) * 100 * previous := by nlinarith
    rw [if_pos h1]
    have h2 : ¬ ((current - previous) * 100 * previous < 0
        ∨ ((current - previous) * 100 = 0 ∧ previous < 0)) := by
      rintro (h | ⟨h3, h4⟩)
      · nlinarith
      · have h5 : current - previous = 0 := by omega
        rw [h5] at hpos
        simp at hpos
    rw [decide_eq_false h2]
    rfl
  · intro hp hnonpos hbound
    simp only [calculate_percentage_change, hp, if_false]
    have h1 : ¬ (0 < (current - previous) * 100 * previous) := by nlinarith
    rw [if_neg h1]
    have h2 : decide ((current - previous) * 100 * previous < 0
          ∨ ((current - previous) * 100 = 0 ∧ previous < 0))
        = decide ((current - previous) * previous < 0
          ∨ (current = previous ∧ previous < 0)) := by
      apply decide_eq_decide.mpr
      constructor
      · rintro (h | ⟨h3, h4⟩)
        · left
          nlinarith
        · right
          exact ⟨by omega, h4⟩
      · rintro (h | ⟨h3, h4⟩)
        · left
          nlinarith
        · right
          exact ⟨by omega, h4⟩
    rw [h2]

/-- C1 witness: the amended theorem applied at `current = 7`, `previous = 4`
(a `75%` increase, comfortably inside the faithful rendering range). -/
theorem c1_percentage_change_witness :
    ((4 : ℤ) ≠ 0) ∧ (0 < ((7 : ℤ) - 4) * 4)
  ∧ (py_round2_frac (((7 : ℤ) - 4) * 100) 4).natAbs ≤ 2 ^ 45 * 100
  ∧ calculate_percentage_change 7 4
      = "+" ++ format_amount2 (py_round2_frac (((7 : ℤ) - 4) * 100) 4) false ++ "%" :=
  ⟨by decide, by decide, by decide,
    (c1_percentage_change 7 4).2.1 (by decide) (by decide) (by decide)⟩

/-- Wall-clock fields of a Python `datetime`, together with its attached
`tzinfo` (modelled as an opaque timezone name, `none` for a naive datetime). -/
structure PyDateTime where
  year : Int
  month : Nat
  day : Nat
  hour : Nat
  minute : Nat
  second : Nat
  microsecond : Nat
  tzinfo : Option String
deriving DecidableEq, Repr

/-- Gregorian leap-year rule, as used by the `datetime` and `dateutil`
libraries. -/
def isLeapYear (y : Int) : Bool :=
  (y % 4 == 0 && y % 100 != 0) || y % 400 == 0

/-- Number of days of month `m` of year `y` (months outside `1..12` do not
arise for `datetime` values; they default to 31 here). -/
def daysInMonth (y : Int) (m : Nat) : Nat :=
  if m = 2 then (if isLeapYear y then 29 else 28)
  else if m = 4 ∨ m = 6 ∨ m = 9 ∨ m = 11 then 30
  else 31

/-- Subtraction of `relativedelta(years=1)` (external library
`dateutil.relativedelta`): the year is decremented and the day is clamped to
the length of the month in the target year (Feb 29 of a leap year becomes
Feb 28 one year earlier); every other field is kept. -/
def sub_one_year (dt : PyDateTime) : PyDateTime :=
  { dt with year := dt.year - 1
            day := min dt.day (daysInMonth (dt.year - 1) dt.month) }

/-- Inner `localize_time` of `Command.construct_date_periods`
(`report_weekly_revenue.py` lines 70-75): when a timezone was parsed, the
wall-clock fields are kept and the parsed timezone is attached
(`tzinfo.localize(time.replace(tzinfo=None))`); otherwise the instant is
returned unchanged (still carrying its UTC tzinfo). -/
def localize_time (tzinfo : Option String) (time : PyDateTime) : PyDateTime :=
  match tzinfo with
  | some z => { time with tzinfo := some z }
  | none => time

/-- Truncation of the anchor (`report_weekly_revenue.py` lines 77-81):
`at_time.replace(minute=0 if period != 'yearly' else at_time.minute,
second=0, microsecond=0)`. -/
def base_time_of (at_time : PyDateTime) (period : String) : PyDateTime :=
  { at_time with minute := if period ≠ "yearly" then 0 else at_time.minute
                 second := 0
                 microsecond := 0 }

/-- The five period-generating functions imported from `saas.metrics.base`
(not under `src/`); each takes a period count, a `from_date` anchor, a
timezone, and an `include_start_date` flag, and returns a list of boundary
instants.  They are kept fully abstract. -/
structure PeriodFuncs where
  hour_periods : Nat → PyDateTime → Option String → Bool → List PyDateTime
  day_periods : Nat → PyDateTime → Option String → Bool → List PyDateTime
  week_periods : Nat → PyDateTime → Option String → Bool → List PyDateTime
  month_periods_v2 : Nat → PyDateTime → Option String → Bool → List PyDateTime
  year_periods : Nat → PyDateTime → Option String → Bool → List PyDateTime

/-- The dispatch dictionary of `construct_date_periods`
(`report_weekly_revenue.py` lines 84-91): `{'hourly': hour_periods, ...,
'yearly': year_periods}.get(period)`. -/
def period_func_of (pfs : PeriodFuncs) (period : String) :
    Option (Nat → PyDateTime → Option String → Bool → List PyDateTime) :=
  if period = "hourly" then some pfs.hour_periods
  else if period = "daily" then some pfs.day_periods
  else if period = "weekly" then some pfs.week_periods
  else if period = "monthly" then some pfs.month_periods_v2
  else if period = "yearly" then some pfs.year_periods
  else none

/-- Lines 99-104 of `report_weekly_revenue.py`: `prev_year_from_date =
base_time - relativedelta(years=1)`, and one more year subtracted when
`base_time.day == 1 and base_time.month == 1`. -/
def prev_year_from_date_of (base_time : PyDateTime) : PyDateTime :=
  let d := sub_one_year base_time
  if base_time.day = 1 ∧ base_time.month = 1 then sub_one_year d else d

/-- Translation of `Command.construct_date_periods`
(`report_weekly_revenue.py` lines 64-110).  `parse_tz` (from `saas.utils`, not under `src/`) and the period
generators are abstract parameters; the Python function returns the pair
`(None, None)` for an unrecognized period, modelled by `(none, none)`. -/
def construct_date_periods (parse_tz : Option String → Option String)
    (pfs : PeriodFuncs) (at_time : PyDateTime) (period : String)
    (timezone : Option String) :
    Option (List PyDateTime) × Option (List PyDateTime) :=
  let tzinfo := parse_tz timezone
  let base_time := localize_time tzinfo (base_time_of at_time period)
  match period_func_of pfs period with
  | none => (none, none)
  | some pfunc =>
    let include_start : Bool := period == "yearly"
    let prev_year_from_date := prev_year_from_date_of base_time
    let prev_period := pfunc 2 base_time tzinfo include_start
    let prev_year := pfunc 1 prev_year_from_date tzinfo false
    (some prev_period, some prev_year)

/-- Concrete generator family for witnesses: every generator returns its
`from_date` argument as the sole boundary, which makes the dates passed by
`construct_date_periods` observable in its output. -/
def pfsObserve : PeriodFuncs :=
  ⟨fun _ d _ _ => [d], fun _ d _ _ => [d], fun _ d _ _ => [d],
   fun _ d _ _ => [d], fun _ d _ _ => [d]⟩

/-- The anchor instant 2024-01-01T00:00:00Z. -/
def anchor2024 : PyDateTime := ⟨2024, 1, 1, 0, 0, 0, 0, some "UTC"⟩

/-- The instant 2022-01-01T00:00:00Z. -/
def jan2022 : PyDateTime := ⟨2022, 1, 1, 0, 0, 0, 0, some "UTC"⟩

/-- C2: for every anchor and recognized granularity, the year-ago sequence is
generated from `prev_year_from_date`, which is the truncated, localized base
time minus one year, minus one FURTHER year exactly when the base time has
`day = 1` and `month = 1`; in particular anchor 2024-01-01T00:00:00Z with
granularity yearly puts `prev_year_from_date` at 2022-01-01T00:00:00Z (made
observable through the `pfsObserve` generators). -/
theorem c2_prev_year_from_date (parse_tz : Option String → Option String)
    (pfs : PeriodFuncs) (at_time : PyDateTime) (period : String)
    (timezone : Option String)
    (f : Nat → PyDateTime → Option String → Bool → List PyDateTime)
    (h : period_func_of pfs period = some f) :
    ((construct_date_periods parse_tz pfs at_time period timezone).2
      = some (f 1 (prev_year_from_date_of
          (localize_time (parse_tz timezone) (base_time_of at_time period)))
          (parse_tz timezone) false))
  ∧ (∀ base : PyDateTime,
      (base.day = 1 ∧ base.month = 1 →
        prev_year_from_date_of base = sub_one_year (sub_one_year base))
      ∧ (¬ (base.day = 1 ∧ base.month = 1) →
        prev_year_from_date_of base = sub_one_year base))
  ∧ (construct_date_periods (fun _ => none) pfsObserve anchor2024 "yearly" none).2
      = some [jan2022] := by
  refine ⟨?_, ?_, by decide⟩
  · simp only [construct_date_periods, h]
  · intro base
    constructor
    · intro hb
      simp only [prev_year_from_date_of, if_pos hb]
    · intro hb
      simp only [prev_year_from_date_of, if_neg hb]

/-- C2 witness: the theorem applied to the observing generator family with
the yearly granularity at the anchor 2024-01-01T00:00:00Z. -/
theorem c2_prev_year_from_date_witness :
    period_func_of pfsObserve "yearly" = some pfsObserve.year_periods
  ∧ (construct_date_periods (fun _ => none) pfsObserve anchor2024 "yearly" none).2
      = some [jan2022] :=
  ⟨rfl, (c2_prev_year_from_date (fun _ => none) pfsObserve anchor2024 "yearly" none
      pfsObserve.year_periods rfl).2.2⟩

/-- C3: for a period that is none of the five recognized granularities,
`construct_date_periods` returns the sentinel pair `(none, none)` — no
windows for either sequence — for every anchor, timezone, timezone parser
and generator family; being a total function, it raises nothing. -/
theorem c3_unrecognized_period (parse_tz : Option String → Option String)
    (pfs : PeriodFuncs) (at_time : PyDateTime) (period : String)
    (timezone : Option String)
    (h : period ∉ (["hourly", "daily", "weekly", "monthly", "yearly"] : List String)) :
    construct_date_periods parse_tz pfs at_time period timezone = (none, none) := by
  simp only [List.mem_cons, List.mem_singleton, not_or] at h
  obtain ⟨h1, h2, h3, h4, h5, -⟩ := h
  simp only [construct_date_periods, period_func_of, if_neg h1, if_neg h2, if_neg h3,
    if_neg h4, if_neg h5]

/-- C3 witness: the granularity `"quarterly"` is unrecognized and yields
`(none, none)`. -/
theorem c3_unrecognized_period_witness :
    ("quarterly" ∉ (["hourly", "daily", "weekly", "monthly", "yearly"] : List String))
  ∧ construct_date_periods (fun _ => none) pfsObserve anchor2024 "quarterly" none
      = (none, none) :=
  ⟨by decide, c3_unrecognized_period (fun _ => none) pfsObserve anchor2024 "quarterly" none
      (by decide)⟩

/-- C4: the truncated base time computed by `construct_date_periods` (through
`base_time_of`) zeroes second and microsecond always, zeroes the minute
exactly when the granularity is not yearly (keeping it for yearly), and
keeps year, month, day and hour in every case. -/
theorem c4_truncation (at_time : PyDateTime) (period : String) :
    (base_time_of at_time period).minute
      = (if period = "yearly" then at_time.minute else 0)
  ∧ (base_time_of at_time period).second = 0
  ∧ (base_time_of at_time period).microsecond = 0
  ∧ (base_time_of at_time period).year = at_time.year
  ∧ (base_time_of at_time period).month = at_time.month
  ∧ (base_time_of at_time period).day = at_time.day
  ∧ (base_time_of at_time period).hour = at_time.hour := by
  by_cases h : period = "yearly" <;>
    simp [base_time_of, h]

/-- C5: for every recognized granularity, `construct_date_periods` calls the
selected generator requesting 2 periods from the truncated localized base
time with `include_start_date` true exactly when the granularity is yearly
(the recent sequence), and requesting 1 period from `prev_year_from_date`
with `include_start_date` false (the year-ago sequence). -/
theorem c5_generator_invocation (parse_tz : Option String → Option String)
    (pfs : PeriodFuncs) (at_time : PyDateTime) (period : String)
    (timezone : Option String)
    (f : Nat → PyDateTime → Option String → Bool → List PyDateTime)
    (h : period_func_of pfs period = some f) :
    construct_date_periods parse_tz pfs at_time period timezone
      = (some (f 2 (localize_time (parse_tz timezone) (base_time_of at_time period))
            (parse_tz timezone) (period == "yearly")),
         some (f 1 (prev_year_from_date_of
              (localize_time (parse_tz timezone) (base_time_of at_time period)))
            (parse_tz timezone) false)) := by
  simp only [construct_date_periods, h]

/-- C5 witness: the theorem applied to the observing generator family with
the weekly granularity (where `include_start_date` is false). -/
theorem c5_generator_invocation_witness :
    period_func_of pfsObserve "weekly" = some pfsObserve.week_periods
  ∧ construct_date_periods (fun _ => none) pfsObserve anchor2024 "weekly" none
      = (some (pfsObserve.week_periods 2
            (localize_time none (base_time_of anchor2024 "weekly")) none ("weekly" == "yearly")),
         some (pfsObserve.week_periods 1
            (prev_year_from_date_of (localize_time none (base_time_of anchor2024 "weekly")))
            none false)) :=
  ⟨rfl, c5_generator_invocation (fun _ => none) pfsObserve anchor2024 "weekly" none
      pfsObserve.week_periods rfl⟩

/-- A Python value held in a metric row: a (monetary) integer before
rendering, a string after. -/
inductive PyVal where
  | int (n : ℤ)
  | str (s : String)
deriving DecidableEq, Repr

/-- Python exceptions that the modelled code can raise uncaught: `TypeError`
from the table builder (only `ZeroDivisionError` is caught there) and
`IndexError` from the fixed subscripts of `get_perf_data` on aggregation
results that are too short. -/
inductive PyErr where
  | typeError
  | indexError
deriving DecidableEq, Repr

/-- The `values` dict of a metric row: `{'last': ..., 'prev': ...,
'prev_year': ...}`. -/
structure RowValues where
  last : PyVal
  prev : PyVal
  prev_year : PyVal
deriving DecidableEq, Repr

/-- One row of the comparison table: `{'slug': ..., 'title': ...,
'values': {...}}`. -/
structure MetricRow where
  slug : String
  title : String
  values : RowValues
deriving DecidableEq, Repr

/-- Application of `calculate_percentage_change` to dynamically typed values:
on two integers it is the function proved above; on anything else
`current - previous` raises `TypeError`, which the `except
ZeroDivisionError` clause does not catch. -/
def calc_pct_dyn (current previous : PyVal) : Except PyErr String :=
  match current, previous with
  | .int c, .int p => .ok (calculate_percentage_change c p)
  | _, _ => .error .typeError

/-- Modelled from the spec: `as_money` (from `saas.humanize`, not under
`src/`) renders a numeric amount as a money-formatted string in the given
unit; it is kept abstract as the parameter `as_money`.  Applying it to a
value that is already a rendered string is modelled as a `TypeError`. -/
def as_money_dyn (as_money : ℤ → String → String) (v : PyVal) (unit : String) :
    Except PyErr PyVal :=
  match v with
  | .int n => .ok (.str (as_money n unit))
  | .str _ => .error .typeError

/-- Body of the `for row in table` loop of `Command.construct_table`
(`report_weekly_revenue.py` lines 124-128): `val['prev']` and
`val['prev_year']` are replaced by percentage changes computed against
`val['last']`, then `val['last']` is replaced by its money rendering. -/
def construct_table_row (as_money : ℤ → String → String) (unit : String)
    (row : MetricRow) : Except PyErr MetricRow :=
  match calc_pct_dyn row.values.last row.values.prev with
  | .error e => .error e
  | .ok prev_str =>
    match calc_pct_dyn row.values.last row.values.prev_year with
    | .error e => .error e
    | .ok prev_year_str =>
      match as_money_dyn as_money row.values.last unit with
      | .error e => .error e
      | .ok last_val =>
        .ok ⟨row.slug, row.title, ⟨last_val, .str prev_str, .str prev_year_str⟩⟩

/-- Translation of `Command.construct_table`
(`report_weekly_revenue.py` lines 112-129):
the loop over the rows, an uncaught exception aborting the run.  The Python
function mutates the rows in place and returns the same list object; the
translation returns the rendered list. -/
def construct_table (as_money : ℤ → String → String) :
    List MetricRow → String → Except PyErr (List MetricRow)
  | [], _ => .ok []
  | row :: rest, unit =>
    match construct_table_row as_money unit row with
    | .error e => .error e
    | .ok newRow =>
      match construct_table as_money rest unit with
      | .error e => .error e
      | .ok newRest => .ok (newRow :: newRest)

/-- Modelled from the spec: `get_different_units` (from
`saas.metrics.base`, not under `src/`) returns the distinct currency units
observed across the aggregation results, in first-seen order; an absent
unit is not an observed unit. -/
def get_different_units (units : List (Option String)) : List String :=
  (units.filterMap id).foldl (fun acc u => if u ∈ acc then acc else acc ++ [u]) []

/-- The condition under which `get_perf_data` logs its unit-inconsistency
diagnostic (`if len(units) > 1: LOGGER.error(...)`,
`report_weekly_revenue.py` lines 166-167). -/
def get_perf_data_diagnostic (table_unit payments_unit refund_unit : Option String) : Bool :=
  1 < (get_different_units [table_unit, payments_unit, refund_unit]).length

/-- Lookup for the subscript chain `account_table[i]['values'][j][1]` of
`get_perf_data`: `none` when either index is out of range (where Python
raises `IndexError`), otherwise the amount (second pair component). -/
def account_value (t : List (List (String × ℤ))) (i j : Nat) : Option ℤ :=
  match t.get? i with
  | none => none
  | some r =>
    match r.get? j with
    | none => none
    | some p => some p.2

/-- Lookup for the subscript chain `amounts[i][1]` of `get_perf_data`:
`none` when the index is out of range (where Python raises `IndexError`),
otherwise the amount. -/
def amount_value (l : List (String × ℤ)) (i : Nat) : Option ℤ :=
  match l.get? i with
  | none => none
  | some p => some p.2

/-- Translation of `Command.get_perf_data`
(`report_weekly_revenue.py` lines 131-208).
The aggregation collaborators (`aggregate_transactions_change_by_period`
and `aggregate_transactions_by_period`, from `saas.metrics.base`, not
under `src/`) are external; their returned pieces are taken as arguments,
named as the variables the Python code unpacks them into:
`account_table` rows carry the `['values']` list of `(date, amount)`
pairs, the `*_amounts` lists are `(date, amount)` pairs, and the three
units are as reported.  `default_unit` stands for
`settings.DEFAULT_UNIT`.  The unit is reconciled first (lines 163-170, as
in the source); the table literal then subscripts the aggregation results
at fixed indices, and an out-of-range subscript raises `IndexError` — the
fifteen lookups are matched together, any `none` among them producing the
error, as each failing subscript would in Python. -/
def get_perf_data (default_unit : String)
    (account_table account_table_prev_year : List (List (String × ℤ)))
    (table_unit : Option String)
    (payment_amounts payment_amounts_prev_year : List (String × ℤ))
    (payments_unit : Option String)
    (refund_amounts refund_amounts_prev_year : List (String × ℤ))
    (refund_unit : Option String) :
    Except PyErr (List MetricRow × String) :=
  let units := get_different_units [table_unit, payments_unit, refund_unit]
  let unit := match units with
    | [] => default_unit
    | u :: _ => u
  match account_value account_table 0 1, account_value account_table 0 0,
        account_value account_table_prev_year 0 0,
        account_value account_table 1 1, account_value account_table 1 0,
        account_value account_table_prev_year 1 0,
        account_value account_table 2 1, account_value account_table 2 0,
        account_value account_table_prev_year 2 0,
        amount_value payment_amounts 1, amount_value payment_amounts 0,
        amount_value payment_amounts_prev_year 0,
        amount_value refund_amounts 1, amount_value refund_amounts 0,
        amount_value refund_amounts_prev_year 0 with
  | some tl, some tp, some ty, some nl, some np, some ny, some cl, some cp, some cy,
    some pl, some pp, some py2, some rl, some rp, some ry =>
      .ok ([
        ⟨"Total Sales", "Total Sales", ⟨.int tl, .int tp, .int ty⟩⟩,
        ⟨"New Sales", "New Sales", ⟨.int nl, .int np, .int ny⟩⟩,
        ⟨"Churned Sales", "Churned Sales", ⟨.int cl, .int cp, .int cy⟩⟩,
        ⟨"Payments", "Payments", ⟨.int pl, .int pp, .int py2⟩⟩,
        ⟨"Refunds", "Refunds", ⟨.int rl, .int rp, .int ry⟩⟩], unit)
  | _, _, _, _, _, _, _, _, _, _, _, _, _, _, _ => .error .indexError

/-- Helper: a successful run of the loop body keeps the slug and title of
the row. -/
lemma construct_table_row_slug_title {am : ℤ → String → String} {u : String}
    {row y : MetricRow} (h : construct_table_row am u row = .ok y) :
    y.slug = row.slug ∧ y.title = row.title := by
  unfold construct_table_row at h
  repeat' split at h
  any_goals cases h
  exact ⟨rfl, rfl⟩

/-- Helper: on a row with three integer amounts, the loop body renders the
row from the original `last` amount. -/
lemma construct_table_row_int {am : ℤ → String → String} {u : String}
    {s t : String} {a b c : ℤ} :
    construct_table_row am u ⟨s, t, ⟨.int a, .int b, .int c⟩⟩
      = .ok ⟨s, t, ⟨.str (am a u), .str (calculate_percentage_change a b),
          .str (calculate_percentage_change a c)⟩⟩ := rfl

/-- Helper: on a row whose `last` value is already a rendered string, the
loop body raises `TypeError` at the first subtraction. -/
lemma construct_table_row_str {am : ℤ → String → String} {u : String}
    {row : MetricRow} {s : String} (h : row.values.last = .str s) :
    construct_table_row am u row = .error .typeError := by
  cases hp : row.values.prev <;>
    simp [construct_table_row, calc_pct_dyn, h, hp]

/-- Helper: shape of a successful run of `construct_table` on a non-empty
table. -/
lemma construct_table_cons {am : ℤ → String → String} {u : String}
    {row : MetricRow} {rest out : List MetricRow}
    (h : construct_table am (row :: rest) u = .ok out) :
    ∃ y ys, construct_table_row am u row = .ok y
      ∧ construct_table am rest u = .ok ys ∧ out = y :: ys := by
  unfold construct_table at h
  split at h
  · cases h
  · rename_i y h1
    split at h
    · cases h
    · rename_i ys h2
      cases h
      exact ⟨y, ys, h1, h2, rfl⟩

/-- Helper: a successful run of `construct_table` on a table of all-numeric
rows leaves every output row with three string values. -/
lemma construct_table_strings {am : ℤ → String → String} {u : String} :
    ∀ (t out : List MetricRow),
    (∀ row ∈ t, ∃ a b c : ℤ, row.values = ⟨.int a, .int b, .int c⟩) →
    construct_table am t u = .ok out →
    ∀ row ∈ out, ∃ sl sp sy : String, row.values = ⟨.str sl, .str sp, .str sy⟩ := by
  intro t
  induction t with
  | nil =>
    intro out _ h row hrow
    unfold construct_table at h
    cases h
    simp at hrow
  | cons r rest ih =>
    intro out hnum h row hrow
    obtain ⟨y, ys, h1, h2, rfl⟩ := construct_table_cons h
    rcases List.mem_cons.mp hrow with hrow | hrow
    · obtain ⟨a, b, c, hv⟩ := hnum r (by simp)
      obtain ⟨rs, rt, rv⟩ := r
      simp only at hv
      subst hv
      rw [construct_table_row_int] at h1
      injection h1 with h1
      subst hrow
      rw [← h1]
      exact ⟨am a u, calculate_percentage_change a b, calculate_percentage_change a c, rfl⟩
    · exact ih ys (fun r2 hr2 => hnum r2 (by simp [hr2])) h2 row hrow

/-- Helper: whatever a successful `get_perf_data` run returns has the five
fixed rows (slug equal to title) and the reconciled unit. -/
lemma get_perf_data_ok {du : String} {a1 a2 : List (List (String × ℤ))}
    {tu : Option String} {p1 p2 : List (String × ℤ)} {pu : Option String}
    {r1 r2 : List (String × ℤ)} {ru : Option String}
    {p : List MetricRow × String}
    (h : get_perf_data du a1 a2 tu p1 p2 pu r1 r2 ru = .ok p) :
    p.1.map MetricRow.slug
      = ["Total Sales", "New Sales", "Churned Sales", "Payments", "Refunds"]
  ∧ p.1.map MetricRow.title
      = ["Total Sales", "New Sales", "Churned Sales", "Payments", "Refunds"]
  ∧ (∀ row ∈ p.1, row.slug = row.title)
  ∧ p.2 = (match get_different_units [tu, pu, ru] with
      | [] => du
      | u :: _ => u) := by
  simp only [get_perf_data] at h
  split at h
  · cases h
    refine ⟨rfl, rfl, ?_, rfl⟩
    intro row hrow
    simp only [List.mem_cons, List.not_mem_nil, or_false] at hrow
    rcases hrow with h | h | h | h | h <;> subst h <;> rfl
  · cases h

/-- C6: whenever `get_perf_data` produces a table (it raises `IndexError`
on aggregation results too short for its fixed subscripts), that table is
exactly the five rows Total Sales, New Sales, Churned Sales, Payments,
Refunds in that order, with slug equal to title in every row, whatever raw
amounts and units are supplied; and `construct_table` preserves the row
order, slugs and titles. -/
theorem c6_fixed_rows :
    (∀ (du : String) (a1 a2 : List (List (String × ℤ))) (tu : Option String)
        (p1 p2 : List (String × ℤ)) (pu : Option String)
        (r1 r2 : List (String × ℤ)) (ru : Option String)
        (p : List MetricRow × String),
      get_perf_data du a1 a2 tu p1 p2 pu r1 r2 ru = .ok p →
      p.1.length = 5
      ∧ p.1.map MetricRow.slug
          = ["Total Sales", "New Sales", "Churned Sales", "Payments", "Refunds"]
      ∧ p.1.map MetricRow.title
          = ["Total Sales", "New Sales", "Churned Sales", "Payments", "Refunds"]
      ∧ ∀ row ∈ p.1, row.slug = row.title)
  ∧ (∀ (am : ℤ → String → String) (t out : List MetricRow) (u : String),
      construct_table am t u = .ok out →
      out.map MetricRow.slug = t.map MetricRow.slug
      ∧ out.map MetricRow.title = t.map MetricRow.title) := by
  constructor
  · intro du a1 a2 tu p1 p2 pu r1 r2 ru p h
    obtain ⟨hs, ht, hst, -⟩ := get_perf_data_ok h
    refine ⟨?_, hs, ht, hst⟩
    have hl := congrArg List.length hs
    simpa using hl
  · intro am t
    induction t with
    | nil =>
      intro out u h
      unfold construct_table at h
      cases h
      exact ⟨rfl, rfl⟩
    | cons row rest ih =>
      intro out u h
      obtain ⟨y, ys, h1, h2, rfl⟩ := construct_table_cons h
      obtain ⟨hs, ht⟩ := construct_table_row_slug_title h1
      obtain ⟨ihs, iht⟩ := ih ys u h2
      simp [hs, ht, ihs, iht]

/-- Concrete money renderer for witnesses. -/
def amX : ℤ → String → String := fun _ _ => "x"

/-- Concrete raw metric row for witnesses: last 150, prev 100, prev_year 0. -/
def rowW : MetricRow := ⟨"Total Sales", "Total Sales", ⟨.int 150, .int 100, .int 0⟩⟩

/-- The rendering of `rowW` by `construct_table` with unit `"usd"` and money
renderer `amX`. -/
def rowWR : MetricRow := ⟨"Total Sales", "Total Sales", ⟨.str "x", .str "+50.0%", .str "N/A"⟩⟩

/-- Concrete aggregation results for witnesses, shaped as the aggregation
collaborators shape them: three account rows of two periods each (and one
period for the year-ago table), two-period payment and refund amounts. -/
def atW : List (List (String × ℤ)) :=
  [[("p", 10), ("l", 11)], [("p", 20), ("l", 21)], [("p", 30), ("l", 31)]]

/-- Year-ago account rows for witnesses. -/
def atpW : List (List (String × ℤ)) := [[("p", 1)], [("p", 2)], [("p", 3)]]

/-- Payment amounts for witnesses. -/
def payW : List (String × ℤ) := [("p", 5), ("l", 6)]

/-- Year-ago payment amounts for witnesses. -/
def paypW : List (String × ℤ) := [("p", 7)]

/-- Refund amounts for witnesses. -/
def refW : List (String × ℤ) := [("p", 8), ("l", 9)]

/-- Year-ago refund amounts for witnesses. -/
def refpW : List (String × ℤ) := [("p", 4)]

/-- The table `get_perf_data` builds from the witness aggregates. -/
def tableW : List MetricRow := [
  ⟨"Total Sales", "Total Sales", ⟨.int 11, .int 10, .int 1⟩⟩,
  ⟨"New Sales", "New Sales", ⟨.int 21, .int 20, .int 2⟩⟩,
  ⟨"Churned Sales", "Churned Sales", ⟨.int 31, .int 30, .int 3⟩⟩,
  ⟨"Payments", "Payments", ⟨.int 6, .int 5, .int 7⟩⟩,
  ⟨"Refunds", "Refunds", ⟨.int 9, .int 8, .int 4⟩⟩]

/-- C6 witness: the theorem applied at fully shaped witness aggregates and
at the one-row table `rowW`. -/
theorem c6_fixed_rows_witness :
    get_perf_data "usd" atW atpW none payW paypW none refW refpW none
      = .ok (tableW, "usd")
  ∧ (tableW, ("usd" : String)).1.map MetricRow.slug
      = ["Total Sales", "New Sales", "Churned Sales", "Payments", "Refunds"]
  ∧ construct_table amX [rowW] "usd" = .ok [rowWR]
  ∧ [rowWR].map MetricRow.slug = [rowW].map MetricRow.slug := by
  refine ⟨rfl, ?_, rfl, ?_⟩
  · exact (c6_fixed_rows.1 "usd" atW atpW none payW paypW none refW refpW none
      (tableW, "usd") rfl).2.1
  · exact (c6_fixed_rows.2 amX [rowW] [rowWR] "usd" rfl).1

/-- C7: on every run of `get_perf_data` that returns (short aggregation
results raise `IndexError` instead), the adopted unit is the first element
of the distinct-unit list when that list is non-empty and the system
default otherwise; the diagnostic is emitted exactly when more than one
distinct unit was observed (the logging guard runs before the table
subscripts, so it fires regardless of the later lookups); and on the
observed units usd, usd, eur the reconciled unit is usd with the diagnostic
emitted. -/
theorem c7_unit_reconciliation (du : String)
    (a1 a2 : List (List (String × ℤ))) (tu : Option String)
    (p1 p2 : List (String × ℤ)) (pu : Option String)
    (r1 r2 : List (String × ℤ)) (ru : Option String) :
    (∀ p, get_perf_data du a1 a2 tu p1 p2 pu r1 r2 ru = .ok p →
        (get_different_units [tu, pu, ru] = [] → p.2 = du)
      ∧ (∀ u rest, get_different_units [tu, pu, ru] = u :: rest → p.2 = u))
  ∧ (get_perf_data_diagnostic tu pu ru = true
      ↔ 1 < (get_different_units [tu, pu, ru]).length)
  ∧ get_different_units [some "usd", some "usd", some "eur"] = ["usd", "eur"]
  ∧ (∀ p, get_perf_data du a1 a2 (some "usd") p1 p2 (some "usd") r1 r2 (some "eur")
        = .ok p → p.2 = "usd")
  ∧ get_perf_data_diagnostic (some "usd") (some "usd") (some "eur") = true := by
  refine ⟨?_, by simp [get_perf_data_diagnostic], by decide, ?_, by decide⟩
  · intro p h
    have hu := (get_perf_data_ok h).2.2.2
    constructor
    · intro he
      rw [hu, he]
    · intro u rest he
      rw [hu, he]
  · intro p h
    have hu := (get_perf_data_ok h).2.2.2
    rw [hu]
    rfl

/-- C7 witness: the theorem applied at the shaped witness aggregates with
observed units usd, usd, eur, where the reconciled unit is usd. -/
theorem c7_unit_reconciliation_witness :
    get_perf_data "usd" atW atpW (some "usd") payW paypW (some "usd") refW refpW (some "eur")
      = .ok (tableW, "usd")
  ∧ ((tableW, "usd") : List MetricRow × String).2 = "usd" :=
  ⟨rfl, (c7_unit_reconciliation "usd" atW atpW (some "usd") payW paypW (some "usd")
      refW refpW (some "eur")).2.2.2.1 (tableW, "usd") rfl⟩

/-- C8: whenever `construct_table` succeeds, every input row holding the
numeric amounts `last = a`, `prev = b`, `prev_year = c` is rendered using
the ORIGINAL numeric `a` in all three output fields — `prev` becomes the
percentage change of `a` against `b`, `prev_year` the percentage change of
`a` against `c`, and only then does `last` become the money string of `a` —
so every percentage is computed before the formatting of `last`. -/
theorem c8_percentages_before_formatting (am : ℤ → String → String) (u : String) :
    ∀ (t out : List MetricRow), construct_table am t u = .ok out →
    ∀ (i : Nat) (s ttl : String) (a b c : ℤ),
      t.get? i = some ⟨s, ttl, ⟨.int a, .int b, .int c⟩⟩ →
      out.get? i = some ⟨s, ttl, ⟨.str (am a u), .str (calculate_percentage_change a b),
        .str (calculate_percentage_change a c)⟩⟩ := by
  intro t
  induction t with
  | nil =>
    intro out h i s ttl a b c hi
    simp at hi
  | cons row rest ih =>
    intro out h i s ttl a b c hi
    obtain ⟨y, ys, h1, h2, rfl⟩ := construct_table_cons h
    cases i with
    | zero =>
      rw [List.get?_cons_zero] at hi
      injection hi with hi
      subst hi
      rw [construct_table_row_int] at h1
      injection h1 with h1
      rw [List.get?_cons_zero, h1]
    | succ n =>
      rw [List.get?_cons_succ] at hi ⊢
      exact ih ys h2 n s ttl a b c hi

/-- C8 witness: the theorem applied to the one-row table `rowW`
(last 150, prev 100, prev_year 0) rendered with unit usd. -/
theorem c8_percentages_before_formatting_witness :
    construct_table amX [rowW] "usd" = .ok [rowWR]
  ∧ [rowW].get? 0 = some ⟨"Total Sales", "Total Sales", ⟨.int 150, .int 100, .int 0⟩⟩
  ∧ [rowWR].get? 0 = some ⟨"Total Sales", "Total Sales",
      ⟨.str (amX 150 "usd"), .str (calculate_percentage_change 150 100),
       .str (calculate_percentage_change 150 0)⟩⟩ :=
  ⟨rfl, rfl, c8_percentages_before_formatting amX "usd" [rowW] [rowWR] rfl 0
    "Total Sales" "Total Sales" 150 100 0 rfl⟩

/-- C9: `construct_table` is a pure function of its raw inputs — two calls
on equal (but separately supplied) tables with the same unit and money
renderer produce identical output. -/
theorem c9_deterministic (am : ℤ → String → String) (t1 t2 : List MetricRow)
    (u : String) (h : t1 = t2) :
    construct_table am t1 u = construct_table am t2 u := by
  rw [h]

/-- C9 witness: the theorem applied to two copies of the one-row table
`rowW`. -/
theorem c9_deterministic_witness :
    ([rowW] : List MetricRow) = [rowW]
  ∧ construct_table amX [rowW] "usd" = construct_table amX [rowW] "usd" :=
  ⟨rfl, c9_deterministic amX [rowW] [rowW] "usd" rfl⟩

/-- C10: after one successful `construct_table` pass over a non-empty table
of numeric rows, every output row holds strings in all three value fields
(the original numeric amounts are gone), and applying `construct_table` a
second time to its own output does not reproduce the output: it raises
`TypeError` instead (the Python code mutates the row dicts in place and
returns the same list, so the second call sees the rendered strings). -/
theorem c10_rendered_table_not_reprocessable (am : ℤ → String → String) (u : String)
    (t out : List MetricRow) (hne : t ≠ [])
    (hnum : ∀ row ∈ t, ∃ a b c : ℤ, row.values = ⟨.int a, .int b, .int c⟩)
    (h : construct_table am t u = .ok out) :
    (∀ row ∈ out, ∃ sl sp sy : String, row.values = ⟨.str sl, .str sp, .str sy⟩)
  ∧ construct_table am out u = .error .typeError := by
  have hstr := construct_table_strings t out hnum h
  refine ⟨hstr, ?_⟩
  cases t with
  | nil => exact absurd rfl hne
  | cons r rest =>
    obtain ⟨y, ys, h1, h2, rfl⟩ := construct_table_cons h
    obtain ⟨sl, sp, sy, hv⟩ := hstr y (by simp)
    have hrow : construct_table_row am u y = .error .typeError :=
      construct_table_row_str (s := sl) (by rw [hv])
    unfold construct_table
    rw [hrow]

/-- C10 witness: the theorem applied to the one-row table `rowW`; its
rendering `rowWR` holds only strings and a second pass fails. -/
theorem c10_rendered_table_not_reprocessable_witness :
    ([rowW] : List MetricRow) ≠ []
  ∧ (∀ row ∈ ([rowW] : List MetricRow), ∃ a b c : ℤ, row.values = ⟨.int a, .int b, .int c⟩)
  ∧ construct_table amX [rowW] "usd" = .ok [rowWR]
  ∧ ((∀ row ∈ ([rowWR] : List MetricRow), ∃ sl sp sy : String,
        row.values = ⟨.str sl, .str sp, .str sy⟩)
     ∧ construct_table amX [rowWR] "usd" = .error .typeError) := by
  refine ⟨by simp, ?_, rfl, ?_⟩
  · intro row hrow
    simp only [List.mem_singleton] at hrow
    subst hrow
    exact ⟨150, 100, 0, rfl⟩
  · exact c10_rendered_table_not_reprocessable amX "usd" [rowW] [rowWR] (by simp)
      (fun row hrow => by
        simp only [List.mem_singleton] at hrow
        subst hrow
        exact ⟨150, 100, 0, rfl⟩) rfl
